import Mathlib

/-!
# Verification of the MATex-Shoes order-intake backend

A shallow embedding of the `POST /api/place-order` handler of
`backend/server.js` (the Order Handler of the spec), together with proofs
about its validation, notification-isolation, persistence and response
behaviour.

The embedding models the JavaScript values the handler manipulates
(`JVal`), JS truthiness, property access (which throws a `TypeError` on
`null`/`undefined` receivers), object-spread semantics of
`{ id: Date.now(), orderDate: ..., ...orderDetails }` (later keys
override, existing keys keep their position), `Array.prototype.includes`
and `String.prototype.includes` (the latter is a substring test on the
stringified argument), and the read-modify-write cycle against the JSON
store `db.json`.  External effects (clock, mail transport, file system,
`NODE_ENV`) are passed in explicitly through an `Env` record.
-/

set_option autoImplicit false

namespace Matex

/-- JavaScript values as the handler sees them: the JSON-expressible
values plus `undefined`.  Numbers are modelled as integers (every number
the handler manufactures itself — `Date.now()`, ids — is integral). -/
inductive JVal where
  | undefined
  | null
  | bool (b : Bool)
  | num (n : Int)
  | str (s : String)
  | arr (elems : List JVal)
  | obj (fields : List (String × JVal))

/-- JS truthiness: `undefined`, `null`, `false`, `0` and `""` are falsy;
every array and object (even empty) is truthy. -/
def truthy : JVal → Bool
  | .undefined => false
  | .null => false
  | .bool b => b
  | .num n => n != 0
  | .str s => !s.isEmpty
  | .arr _ => true
  | .obj _ => true

/-- First binding of a key in an object's field list (JS objects have
unique keys, so first = only). -/
def lookupField : List (String × JVal) → String → Option JVal
  | [], _ => none
  | (k, v) :: rest, key => if k = key then some v else lookupField rest key

/-- JS property write / object-literal override: an existing key keeps
its position and gets the new value, a new key is appended. -/
def setField : List (String × JVal) → String → JVal → List (String × JVal)
  | [], key, v => [(key, v)]
  | (k, w) :: rest, key, v =>
      if k = key then (key, v) :: rest else (k, w) :: setField rest key v

/-- Property read on an object, `undefined` everywhere else (only used
where the receiver is known not to be `null`/`undefined`). -/
def getFieldD (v : JVal) (key : String) : JVal :=
  match v with
  | .obj fs => (lookupField fs key).getD .undefined
  | _ => .undefined

/-- JS property access: throws a `TypeError` on `null`/`undefined`,
returns the field on objects, `undefined` on other primitives and on
arrays (the handler never reads an index or `length`). -/
def jsGetProp : JVal → String → Except String JVal
  | .undefined, key =>
      .error ("TypeError: Cannot read properties of undefined (reading " ++ key ++ ")")
  | .null, key =>
      .error ("TypeError: Cannot read properties of null (reading " ++ key ++ ")")
  | .obj fs, key => .ok ((lookupField fs key).getD .undefined)
  | _, _ => .ok .undefined

/-- Fields contributed by object spread `{...v}`: an object's own
fields; strings and arrays spread to index keys; other primitives
contribute nothing. -/
def spreadFields : JVal → List (String × JVal)
  | .obj fs => fs
  | .arr xs => xs.enum.map (fun p => (toString p.1, p.2))
  | .str s => s.data.enum.map (fun p => (toString p.1, JVal.str (String.mk [p.2])))
  | _ => []

/-- `needle` begins `hay`. -/
def chLead : List Char → List Char → Bool
  | [], _ => true
  | _ :: _, [] => false
  | a :: as, b :: bs => a = b && chLead as bs

/-- `needle` occurs somewhere inside `hay`. -/
def chHas (needle : List Char) : List Char → Bool
  | [] => needle.isEmpty
  | c :: rest => chLead needle (c :: rest) || chHas needle rest

/-- JS `String.prototype.includes` on already-stringified arguments. -/
def strHas (hay sub : String) : Bool :=
  chHas sub.data hay.data

/-- JS `String(·)` coercion as `Array.prototype.join`/`toString` perform
it: `null`/`undefined` elements render empty, arrays flatten with
commas. -/
def jsToString : JVal → String
  | .undefined => "undefined"
  | .null => "null"
  | .bool b => cond b "true" "false"
  | .num n => toString n
  | .str s => s
  | .obj _ => "[object Object]"
  | .arr xs =>
      String.intercalate "," (xs.attach.map (fun v =>
        match v with
        | ⟨.undefined, _⟩ => ""
        | ⟨.null, _⟩ => ""
        | ⟨w, _⟩ => jsToString w))

/-- SameValueZero as `Array.prototype.includes` applies it in this
handler: the compared values come from two independently parsed JSON
documents (the request body and the store), so two composite
(object/array) values are never reference-equal; primitives compare by
value. -/
def sameValueZero : JVal → JVal → Bool
  | .undefined, .undefined => true
  | .null, .null => true
  | .bool x, .bool y => x == y
  | .num x, .num y => x == y
  | .str x, .str y => x == y
  | _, _ => false

/-- The call `recv.includes(arg)`: SameValueZero membership on arrays,
substring search on strings (the argument is coerced to a string), and
a `TypeError` on anything else — `null`/`undefined` receivers cannot be
read, other values have no `includes` method. -/
def jsIncludes (recv arg : JVal) : Except String Bool :=
  match recv with
  | .arr xs => .ok (xs.any (fun e => sameValueZero e arg))
  | .str s => .ok (strHas s (jsToString arg))
  | .undefined =>
      .error "TypeError: Cannot read properties of undefined (reading includes)"
  | .null =>
      .error "TypeError: Cannot read properties of null (reading includes)"
  | _ => .error "TypeError: soldProducts.includes is not a function"

/-- The JS `Array.prototype.map` with a throwing callback: the first
thrown `TypeError` aborts. -/
def mapE (f : JVal → Except String JVal) : List JVal → Except String (List JVal)
  | [] => .ok []
  | x :: xs => do
      let y ← f x
      let ys ← mapE f xs
      .ok (y :: ys)

/-- Property reads performed on each ordered item while the mail body's
item table is built (`item.id`, `item.name`, `item.price`). -/
def mailItemsOk : List JVal → Except String Unit
  | [] => .ok ()
  | item :: rest => do
      _ ← jsGetProp item "id"
      _ ← jsGetProp item "name"
      _ ← jsGetProp item "price"
      mailItemsOk rest

/-- Building `mailOptions.html`: the template literal reads the customer
fields in order, then calls `orderDetails.items.map(...)` — a
`TypeError` if `items` is absent or has no `map` method — then reads the
summary fields.  Any error here is thrown inside the email `try`. -/
def mailBuild (orderDetails : JVal) : Except String Unit := do
  _ ← jsGetProp orderDetails "name"
  _ ← jsGetProp orderDetails "email"
  _ ← jsGetProp orderDetails "phone"
  _ ← jsGetProp orderDetails "address"
  _ ← jsGetProp orderDetails "city"
  _ ← jsGetProp orderDetails "notes"
  let items ← jsGetProp orderDetails "items"
  match items with
  | .arr xs => do
      mailItemsOk xs
      _ ← jsGetProp orderDetails "total"
      _ ← jsGetProp orderDetails "paymentMethod"
      .ok ()
  | _ => .error "TypeError: orderDetails.items.map is not a function"

/-- One step of `db.shoes.map(shoe => ({...shoe, isSoldOut:
soldProducts.includes(shoe.id) ? true : shoe.isSoldOut}))`. -/
def shoeStep (soldProducts shoe : JVal) : Except String JVal := do
  let sid ← jsGetProp shoe "id"
  let inc ← jsIncludes soldProducts sid
  let old ← jsGetProp shoe "isSoldOut"
  .ok (.obj (setField (spreadFields shoe) "isSoldOut"
        (if inc then .bool true else old)))

/-- `if (!db.orders) db.orders = []` — a falsy `orders` value (absent,
`null`, `0`, `""`, `false`) is replaced by the empty array. -/
def ordersInit (v : JVal) : JVal := if truthy v then v else .arr []

/-- The handler's external effects, passed explicitly: `Date.now()`,
`new Date().toISOString()`, whether `transporter.sendMail` succeeds once
called, the outcome of `fs.readFileSync` + `JSON.parse` on `db.json`,
whether `fs.writeFileSync` throws (and its message), and
`process.env.NODE_ENV === 'production'`. -/
structure Env where
  now : Int
  nowISO : String
  sendMailOk : Bool
  load : Except String JVal
  writeError : Option String
  production : Bool

/-- `{ id: Date.now(), orderDate: new Date().toISOString(),
...orderDetails }`: the fresh stamps come first, then the spread of
`orderDetails` overrides key by key. -/
def newOrderOf (env : Env) (orderDetails : JVal) : JVal :=
  .obj ((spreadFields orderDetails).foldl (fun acc p => setField acc p.1 p.2)
        [("id", .num env.now), ("orderDate", .str env.nowISO)])

/-- The Database Update block: read and parse `db.json`, rewrite
`db.shoes` (a `TypeError` if `db.shoes` is not an array), default a
falsy `db.orders` to `[]` (a `TypeError` if it is truthy but has no
`push`), build and append the new order, write the document back.
Returns the written document and the new order. -/
def persist (env : Env) (soldProducts orderDetails : JVal) :
    Except String (JVal × JVal) := do
  let db ← env.load
  let shoesV ← jsGetProp db "shoes"
  let newShoes ← match shoesV with
    | .arr xs => mapE (shoeStep soldProducts) xs
    | _ => .error "TypeError: db.shoes.map is not a function"
  let ordersV ← jsGetProp db "orders"
  let orders ← match ordersInit ordersV with
    | .arr xs => Except.ok xs
    | _ => .error "TypeError: db.orders.push is not a function"
  let newOrder := newOrderOf env orderDetails
  let newDb := JVal.obj (setField (setField (spreadFields db) "shoes"
        (.arr newShoes)) "orders" (.arr (orders ++ [newOrder])))
  match env.writeError with
  | none => .ok (newDb, newOrder)
  | some e => .error e

/-- What the handler's one call produced: HTTP status, the `success`,
`message`, `orderId` and `error` fields of the JSON response, the final
content of `db.json` (unchanged — i.e. still `env.load` — unless a
write happened), whether the notify step was entered, and whether the
notification was actually delivered. -/
structure HResult where
  status : Nat
  success : Bool
  message : String
  orderId : Option JVal
  errorVal : Option JVal
  store : Except String JVal
  notifyAttempted : Bool
  notified : Bool

/-- The `error` field of a 500 response:
`process.env.NODE_ENV === 'production' ? {} : error.message`. -/
def shapedError (env : Env) (e : String) : JVal :=
  if env.production then .obj [] else .str e

/-- The `POST /api/place-order` handler.  Destructure the body (throws
into the outer catch if the body is `null`/`undefined`); reject a falsy
`orderDetails` or `soldProducts` with 400 before any side effect;
attempt the notification, swallowing every error of that step; persist;
answer 200 with the new order's id, or 500 with an
environment-dependent error detail if the persist step threw. -/
def placeOrder (env : Env) (body : JVal) : HResult :=
  match (do
      let od ← jsGetProp body "orderDetails"
      let sp ← jsGetProp body "soldProducts"
      pure (od, sp) : Except String (JVal × JVal)) with
  | .error e =>
      { status := 500, success := false, message := "Internal server error",
        orderId := none, errorVal := some (shapedError env e),
        store := env.load, notifyAttempted := false, notified := false }
  | .ok (od, sp) =>
      if truthy od && truthy sp then
        let sent := match mailBuild od with
          | .ok _ => env.sendMailOk
          | .error _ => false
        match persist env sp od with
        | .ok (newDb, newOrder) =>
            { status := 200, success := true,
              message := "Order placed successfully",
              orderId := some (getFieldD newOrder "id"), errorVal := none,
              store := .ok newDb, notifyAttempted := true, notified := sent }
        | .error e =>
            { status := 500, success := false,
              message := "Internal server error",
              orderId := none, errorVal := some (shapedError env e),
              store := env.load, notifyAttempted := true, notified := sent }
      else
        { status := 400, success := false,
          message := "Missing required order data",
          orderId := none, errorVal := none,
          store := env.load, notifyAttempted := false, notified := false }

end Matex

namespace Matex

/-! ## Basic lemmas about the embedded JS primitives -/

theorem lookupField_setField_self (fs : List (String × JVal)) (k : String) (v : JVal) :
    lookupField (setField fs k v) k = some v := by
  induction fs with
  | nil => simp [setField, lookupField]
  | cons p rest ih =>
      obtain ⟨k', w⟩ := p
      by_cases h : k' = k
      · simp [setField, h, lookupField]
      · simp [setField, h, lookupField, ih]

theorem lookupField_setField_other (fs : List (String × JVal)) (k : String) (v : JVal)
    (k' : String) (h : k' ≠ k) :
    lookupField (setField fs k v) k' = lookupField fs k' := by
  induction fs with
  | nil => simp [setField, lookupField, Ne.symm h]
  | cons p rest ih =>
      obtain ⟨k0, w⟩ := p
      by_cases h0 : k0 = k
      · subst h0
        simp [setField, lookupField, Ne.symm h]
      · simp only [setField, if_neg h0, lookupField]
        by_cases h1 : k0 = k'
        · simp [h1]
        · simp [h1, ih]

theorem setField_lookup_eq (fs : List (String × JVal)) (k : String) (v : JVal)
    (h : lookupField fs k = some v) : setField fs k v = fs := by
  induction fs with
  | nil => simp [lookupField] at h
  | cons p rest ih =>
      obtain ⟨k', w⟩ := p
      by_cases h0 : k' = k
      · subst h0
        have h' : w = v := by simpa [lookupField] using h
        subst h'
        simp [setField]
      · simp only [lookupField, if_neg h0] at h
        simp [setField, h0, ih h]

theorem lookupField_foldl_not_mem (fields acc : List (String × JVal)) (k : String)
    (h : ∀ p ∈ fields, p.1 ≠ k) :
    lookupField (fields.foldl (fun a p => setField a p.1 p.2) acc) k = lookupField acc k := by
  induction fields generalizing acc with
  | nil => rfl
  | cons p rest ih =>
      simp only [List.foldl_cons]
      rw [ih _ (fun q hq => h q (List.mem_cons_of_mem p hq)),
        lookupField_setField_other _ _ _ _ (Ne.symm (h p (List.mem_cons_self p rest)))]

theorem lookupField_foldl_nodup (fields acc : List (String × JVal)) (k : String)
    (hnd : (fields.map Prod.fst).Nodup) :
    lookupField (fields.foldl (fun a p => setField a p.1 p.2) acc) k =
      (lookupField fields k).or (lookupField acc k) := by
  induction fields generalizing acc with
  | nil => simp [lookupField, Option.or]
  | cons p rest ih =>
      obtain ⟨k', v'⟩ := p
      simp only [List.map_cons, List.nodup_cons] at hnd
      simp only [List.foldl_cons]
      by_cases hk : k' = k
      · subst hk
        have hnot : ∀ q ∈ rest, q.1 ≠ k' := by
          intro q hq hqeq
          exact hnd.1 (hqeq ▸ List.mem_map_of_mem Prod.fst hq)
        rw [lookupField_foldl_not_mem _ _ _ hnot, lookupField_setField_self]
        simp [lookupField, Option.or]
      · rw [ih _ hnd.2, lookupField_setField_other _ _ _ _ (fun hh => hk hh.symm)]
        simp [lookupField, hk]

theorem mapE_ok (f : JVal → Except String JVal) (g : JVal → JVal) (xs : List JVal)
    (h : ∀ x ∈ xs, f x = .ok (g x)) : mapE f xs = .ok (xs.map g) := by
  induction xs with
  | nil => rfl
  | cons x rest ih =>
      simp only [mapE, h x (List.mem_cons_self x rest),
        ih (fun y hy => h y (List.mem_cons_of_mem x hy)), List.map_cons]
      rfl

theorem jsGetProp_truthy_ok (v : JVal) (k : String) (h : truthy v = true) :
    jsGetProp v k = .ok (getFieldD v k) := by
  cases v <;> first | rfl | simp [truthy] at h

end Matex

namespace Matex

/-! ## The pure form of the shoe update and the persist step -/

/-- The pure value of `{...shoe, isSoldOut: soldProducts.includes(shoe.id)
? true : shoe.isSoldOut}` for an object `shoe` and an array
`soldProducts` (the only case in which the callback does not throw). -/
def updateShoe (l : List JVal) (shoe : JVal) : JVal :=
  match shoe with
  | .obj fs => .obj (setField fs "isSoldOut"
      (if l.any (fun e => sameValueZero e ((lookupField fs "id").getD .undefined))
       then .bool true else (lookupField fs "isSoldOut").getD .undefined))
  | v => v

theorem shoeStep_obj (l : List JVal) (fs : List (String × JVal)) :
    shoeStep (.arr l) (.obj fs) = .ok (updateShoe l (.obj fs)) := rfl

theorem mapE_shoeStep (l : List JVal) (shoes : List JVal)
    (h : ∀ s ∈ shoes, ∃ fs, s = JVal.obj fs) :
    mapE (shoeStep (.arr l)) shoes = .ok (shoes.map (updateShoe l)) := by
  refine mapE_ok _ _ _ (fun s hs => ?_)
  obtain ⟨fs, rfl⟩ := h s hs
  exact shoeStep_obj l fs

/-- What a successful persist writes: the parsed document with `shoes`
rewritten and the new order appended to `orders`. -/
def persistedDoc (env : Env) (od : JVal) (dbf : List (String × JVal))
    (newShoes os : List JVal) : JVal :=
  .obj (setField (setField dbf "shoes" (.arr newShoes)) "orders"
        (.arr (os ++ [newOrderOf env od])))

theorem persist_ok (env : Env) (sp od : JVal) (dbf : List (String × JVal))
    (shoes newShoes os : List JVal)
    (hload : env.load = .ok (.obj dbf))
    (hshoes : lookupField dbf "shoes" = some (.arr shoes))
    (hmap : mapE (shoeStep sp) shoes = .ok newShoes)
    (hord : ordersInit ((lookupField dbf "orders").getD .undefined) = .arr os)
    (hw : env.writeError = none) :
    persist env sp od = .ok (persistedDoc env od dbf newShoes os, newOrderOf env od) := by
  unfold persist
  simp only [hload, bind, Except.bind, jsGetProp, hshoes, Option.getD_some, hmap, hord,
    spreadFields, hw, persistedDoc]

theorem persist_load_error (env : Env) (sp od : JVal) (e : String)
    (hload : env.load = .error e) : persist env sp od = .error e := by
  unfold persist
  simp only [hload, bind, Except.bind]

theorem persist_write_error (env : Env) (sp od : JVal) (dbf : List (String × JVal))
    (shoes newShoes os : List JVal) (e : String)
    (hload : env.load = .ok (.obj dbf))
    (hshoes : lookupField dbf "shoes" = some (.arr shoes))
    (hmap : mapE (shoeStep sp) shoes = .ok newShoes)
    (hord : ordersInit ((lookupField dbf "orders").getD .undefined) = .arr os)
    (hw : env.writeError = some e) :
    persist env sp od = .error e := by
  unfold persist
  simp only [hload, bind, Except.bind, jsGetProp, hshoes, Option.getD_some, hmap, hord,
    spreadFields, hw]

/-- On success the order returned (and appended) is always the one built
by `newOrderOf`, whatever the rest of the run did. -/
theorem persist_ok_inv (env : Env) (sp od ndb no : JVal)
    (h : persist env sp od = .ok (ndb, no)) : no = newOrderOf env od := by
  unfold persist at h
  simp only [bind, Except.bind] at h
  repeat' split at h
  all_goals simp_all

end Matex

namespace Matex

/-! ## Response-shape lemmas for the handler -/

/-- The notification outcome of the notify step: delivered only when the
mail body built without throwing and the transport succeeded. -/
def notifyOutcome (env : Env) (od : JVal) : Bool :=
  match mailBuild od with
  | .ok _ => env.sendMailOk
  | .error _ => false

theorem placeOrder_200 (env : Env) (body od sp ndb no : JVal)
    (hod : jsGetProp body "orderDetails" = .ok od)
    (hsp : jsGetProp body "soldProducts" = .ok sp)
    (hto : truthy od = true) (hts : truthy sp = true)
    (hp : persist env sp od = .ok (ndb, no)) :
    placeOrder env body =
      { status := 200, success := true, message := "Order placed successfully",
        orderId := some (getFieldD no "id"), errorVal := none,
        store := .ok ndb, notifyAttempted := true,
        notified := notifyOutcome env od } := by
  unfold placeOrder
  simp only [hod, hsp, bind, Except.bind, pure, Except.pure, hto, hts, Bool.and_self,
    if_pos, hp, notifyOutcome]

theorem placeOrder_400 (env : Env) (body od sp : JVal)
    (hod : jsGetProp body "orderDetails" = .ok od)
    (hsp : jsGetProp body "soldProducts" = .ok sp)
    (hf : truthy od = false ∨ truthy sp = false) :
    placeOrder env body =
      { status := 400, success := false, message := "Missing required order data",
        orderId := none, errorVal := none,
        store := env.load, notifyAttempted := false, notified := false } := by
  unfold placeOrder
  have hts : (truthy od && truthy sp) = false := by
    rcases hf with hf | hf <;> simp [hf]
  simp only [hod, hsp, bind, Except.bind, pure, Except.pure, hts, Bool.false_eq_true,
    if_false]

theorem placeOrder_500 (env : Env) (body od sp : JVal) (e : String)
    (hod : jsGetProp body "orderDetails" = .ok od)
    (hsp : jsGetProp body "soldProducts" = .ok sp)
    (hto : truthy od = true) (hts : truthy sp = true)
    (hp : persist env sp od = .error e) :
    placeOrder env body =
      { status := 500, success := false, message := "Internal server error",
        orderId := none, errorVal := some (shapedError env e),
        store := env.load, notifyAttempted := true,
        notified := notifyOutcome env od } := by
  unfold placeOrder
  simp only [hod, hsp, bind, Except.bind, pure, Except.pure, hto, hts, Bool.and_self,
    if_pos, hp, notifyOutcome]

/-- A truthy `orderDetails` whose `items` field is not an array makes
the mail-body construction throw. -/
theorem mailBuild_items_not_arr (od iv : JVal)
    (hto : truthy od = true)
    (hitems : jsGetProp od "items" = .ok iv)
    (hniv : ∀ xs, iv ≠ .arr xs) :
    mailBuild od = .error "TypeError: orderDetails.items.map is not a function" := by
  have hgv : getFieldD od "items" = iv :=
    Except.ok.inj ((jsGetProp_truthy_ok od "items" hto).symm.trans hitems)
  unfold mailBuild
  simp only [bind, Except.bind, jsGetProp_truthy_ok od _ hto, hgv]

end Matex

namespace Matex

theorem mapE_length (f : JVal → Except String JVal) (xs ys : List JVal)
    (h : mapE f xs = .ok ys) : ys.length = xs.length := by
  induction xs generalizing ys with
  | nil =>
      simp only [mapE, Except.ok.injEq] at h
      simp [← h]
  | cons x rest ih =>
      simp only [mapE, bind, Except.bind] at h
      cases hf : f x with
      | error e => rw [hf] at h; exact absurd h (by simp)
      | ok y =>
          rw [hf] at h
          cases hm : mapE f rest with
          | error e => rw [hm] at h; exact absurd h (by simp)
          | ok ys' =>
              rw [hm] at h
              simp only [Except.ok.injEq] at h
              simp [← h, ih ys' hm]

/-- A `db` whose `shoes` key holds anything but an array (or is absent)
makes `db.shoes.map` throw. -/
theorem persist_shoes_not_arr (env : Env) (sp od v : JVal)
    (dbf : List (String × JVal))
    (hload : env.load = .ok (.obj dbf))
    (hv : (lookupField dbf "shoes").getD .undefined = v)
    (hnv : ∀ xs, v ≠ .arr xs) :
    persist env sp od = .error "TypeError: db.shoes.map is not a function" := by
  unfold persist
  simp only [hload, bind, Except.bind, jsGetProp, hv]

/-- If testing membership of the first shoe's id throws (as it does
whenever `soldProducts` has no `includes` method), the whole persist
step throws that error. -/
theorem persist_includes_error (env : Env) (sp od : JVal) (m : String)
    (dbf sfs : List (String × JVal)) (rest : List JVal)
    (hload : env.load = .ok (.obj dbf))
    (hshoes : lookupField dbf "shoes" = some (.arr (.obj sfs :: rest)))
    (hinc : jsIncludes sp ((lookupField sfs "id").getD .undefined) = .error m) :
    persist env sp od = .error m := by
  unfold persist
  simp only [hload, bind, Except.bind, jsGetProp, hshoes, Option.getD_some, mapE,
    shoeStep, hinc]

/-- Neither the persist step nor the error shaping reads the mail
transport's outcome. -/
theorem persist_ignores_mail (env : Env) (b : Bool) (sp od : JVal) :
    persist { env with sendMailOk := b } sp od = persist env sp od := rfl

/-- The caller-visible outcome of one call: everything in the result
except the notification flags. -/
def coreOut (r : HResult) :
    Nat × Bool × String × Option JVal × Option JVal × Except String JVal :=
  (r.status, r.success, r.message, r.orderId, r.errorVal, r.store)

/-- If `orderDetails` contributes no `id` key, the appended order keeps
the freshly stamped `Date.now()` value. -/
theorem newOrderOf_id_fresh (env : Env) (od : JVal)
    (h : ∀ p ∈ spreadFields od, p.1 ≠ "id") :
    getFieldD (newOrderOf env od) "id" = .num env.now := by
  have hu : getFieldD (newOrderOf env od) "id" =
      (lookupField ((spreadFields od).foldl (fun acc p => setField acc p.1 p.2)
        [("id", .num env.now), ("orderDate", .str env.nowISO)]) "id").getD .undefined := rfl
  rw [hu, lookupField_foldl_not_mem _ _ _ h]
  rfl

end Matex

namespace Matex

/-! ## C5 — invalid requests: 400 and no side effects -/

/-- C5: a request whose `orderDetails` or `soldProducts` is missing
(falsy) is answered 400 with `success: false`, the store is left exactly
as loaded, and the notify step is never entered. -/
theorem C5_invalid_request_no_side_effects (env : Env) (body od sp : JVal)
    (hod : jsGetProp body "orderDetails" = .ok od)
    (hsp : jsGetProp body "soldProducts" = .ok sp)
    (hf : truthy od = false ∨ truthy sp = false) :
    (placeOrder env body).status = 400 ∧
    (placeOrder env body).success = false ∧
    (placeOrder env body).store = env.load ∧
    (placeOrder env body).notifyAttempted = false ∧
    (placeOrder env body).orderId = none := by
  rw [placeOrder_400 env body od sp hod hsp hf]
  exact ⟨rfl, rfl, rfl, rfl, rfl⟩

def c5Env : Env :=
  { now := 1, nowISO := "2025-01-01T00:00:00.000Z", sendMailOk := true,
    load := .ok (.obj [("shoes", .arr []), ("orders", .arr [])]),
    writeError := none, production := false }

def c5Body : JVal := .obj [("soldProducts", .arr [.num 7])]

theorem C5_witness :
    (placeOrder c5Env c5Body).status = 400 ∧
    (placeOrder c5Env c5Body).success = false ∧
    (placeOrder c5Env c5Body).store = c5Env.load ∧
    (placeOrder c5Env c5Body).notifyAttempted = false ∧
    (placeOrder c5Env c5Body).orderId = none :=
  C5_invalid_request_no_side_effects c5Env c5Body .undefined (.arr [.num 7])
    rfl rfl (Or.inl rfl)

/-! ## C6 — persist failures: 500 with environment-shaped error detail -/

/-- C6: when the persist step throws (store unreadable or unparsable —
a `load` error — or unwritable — a `writeError`), the handler answers
500 with `success: false`; the diagnostic message appears only when not
in production, an opaque `{}` otherwise; a failure before the write
leaves the store as loaded. -/
theorem C6_persist_failure_500 :
    (∀ (env : Env) (body od sp : JVal) (e : String),
      jsGetProp body "orderDetails" = .ok od →
      jsGetProp body "soldProducts" = .ok sp →
      truthy od = true → truthy sp = true →
      persist env sp od = .error e →
      (placeOrder env body).status = 500 ∧
      (placeOrder env body).success = false ∧
      (placeOrder env body).errorVal = some (shapedError env e) ∧
      (env.production = true → (placeOrder env body).errorVal = some (.obj [])) ∧
      (env.production = false → (placeOrder env body).errorVal = some (.str e)) ∧
      (placeOrder env body).store = env.load) ∧
    (∀ (env : Env) (sp od : JVal) (e : String),
      env.load = .error e → persist env sp od = .error e) ∧
    (∀ (env : Env) (sp od : JVal) (dbf : List (String × JVal))
        (shoes newShoes os : List JVal) (e : String),
      env.load = .ok (.obj dbf) →
      lookupField dbf "shoes" = some (.arr shoes) →
      mapE (shoeStep sp) shoes = .ok newShoes →
      ordersInit ((lookupField dbf "orders").getD .undefined) = .arr os →
      env.writeError = some e →
      persist env sp od = .error e) := by
  refine ⟨?_, ?_, ?_⟩
  · intro env body od sp e hod hsp hto hts hp
    rw [placeOrder_500 env body od sp e hod hsp hto hts hp]
    refine ⟨rfl, rfl, rfl, ?_, ?_, rfl⟩
    · intro hprod; simp [shapedError, hprod]
    · intro hprod; simp [shapedError, hprod]
  · exact fun env sp od e h => persist_load_error env sp od e h
  · exact fun env sp od dbf shoes newShoes os e h1 h2 h3 h4 h5 =>
      persist_write_error env sp od dbf shoes newShoes os e h1 h2 h3 h4 h5

def c6EnvRead : Env :=
  { now := 5, nowISO := "2025-01-01T00:00:00.000Z", sendMailOk := true,
    load := .error "ENOENT: no such file or directory", writeError := none,
    production := false }

def c6EnvWrite : Env :=
  { now := 5, nowISO := "2025-01-01T00:00:00.000Z", sendMailOk := true,
    load := .ok (.obj [("shoes", .arr []), ("orders", .arr [])]),
    writeError := some "EACCES: permission denied", production := false }

def c6Body : JVal :=
  .obj [("orderDetails", .obj [("name", .str "A"), ("items", .arr [])]),
        ("soldProducts", .arr [.num 7])]

theorem C6_witness :
    ((placeOrder c6EnvRead c6Body).status = 500 ∧
     (placeOrder c6EnvRead c6Body).success = false ∧
     (placeOrder c6EnvRead c6Body).errorVal =
       some (shapedError c6EnvRead "ENOENT: no such file or directory") ∧
     (c6EnvRead.production = true →
       (placeOrder c6EnvRead c6Body).errorVal = some (.obj [])) ∧
     (c6EnvRead.production = false →
       (placeOrder c6EnvRead c6Body).errorVal =
         some (.str "ENOENT: no such file or directory")) ∧
     (placeOrder c6EnvRead c6Body).store = c6EnvRead.load) ∧
    persist c6EnvRead (.arr [.num 7]) (.obj []) =
      .error "ENOENT: no such file or directory" ∧
    persist c6EnvWrite (.arr [.num 7])
      (.obj [("name", .str "A"), ("items", .arr [])]) =
      .error "EACCES: permission denied" :=
  ⟨C6_persist_failure_500.1 c6EnvRead c6Body
      (.obj [("name", .str "A"), ("items", .arr [])]) (.arr [.num 7])
      "ENOENT: no such file or directory" rfl rfl rfl rfl rfl,
   C6_persist_failure_500.2.1 c6EnvRead (.arr [.num 7]) (.obj [])
      "ENOENT: no such file or directory" rfl,
   C6_persist_failure_500.2.2 c6EnvWrite (.arr [.num 7])
      (.obj [("name", .str "A"), ("items", .arr [])])
      [("shoes", .arr []), ("orders", .arr [])] [] [] []
      "EACCES: permission denied" rfl rfl rfl rfl rfl⟩

end Matex

namespace Matex

/-! ## C1 — orderId uniqueness

`id: Date.now()` is only as unique as the millisecond clock, and the
spread `...orderDetails` can overwrite the stamp, so the claimed
lifetime uniqueness fails; distinctness holds once the clock values
differ and the client supplies no `id` of its own. -/

def c1Env : Env :=
  { now := 1000, nowISO := "2025-01-01T00:00:00.000Z", sendMailOk := true,
    load := .ok (.obj [("shoes", .arr []), ("orders", .arr [])]),
    writeError := none, production := false }

def c1BodyA : JVal :=
  .obj [("orderDetails", .obj [("name", .str "A"), ("items", .arr [])]),
        ("soldProducts", .arr [])]

def c1BodyB : JVal :=
  .obj [("orderDetails", .obj [("name", .str "B"), ("items", .arr [])]),
        ("soldProducts", .arr [])]

/-- C1 fails as stated: two distinct valid submissions processed in the
same `Date.now()` millisecond both succeed against the same store and
are answered with the same `orderId`. -/
theorem C1_counterexample :
    c1BodyA ≠ c1BodyB ∧
    (placeOrder c1Env c1BodyA).status = 200 ∧
    (placeOrder c1Env c1BodyB).status = 200 ∧
    (placeOrder c1Env c1BodyA).orderId = some (.num 1000) ∧
    (placeOrder c1Env c1BodyB).orderId = some (.num 1000) := by
  refine ⟨?_, rfl, rfl, rfl, rfl⟩
  intro h
  have h2 := congrArg (fun b => getFieldD (getFieldD b "orderDetails") "name") h
  simp only [c1BodyA, c1BodyB, getFieldD, lookupField] at h2
  exact absurd h2 (by simp [lookupField])

/-- C1 amended: two successful submissions get distinct `orderId`s
provided their `Date.now()` values differ and neither `orderDetails`
carries an `id` key of its own. -/
theorem C1_ids_distinct_for_distinct_times
    (env1 env2 : Env) (body1 body2 od1 od2 sp1 sp2 ndb1 ndb2 no1 no2 : JVal)
    (h1od : jsGetProp body1 "orderDetails" = .ok od1)
    (h1sp : jsGetProp body1 "soldProducts" = .ok sp1)
    (h1to : truthy od1 = true) (h1ts : truthy sp1 = true)
    (h1p : persist env1 sp1 od1 = .ok (ndb1, no1))
    (h1id : ∀ p ∈ spreadFields od1, p.1 ≠ "id")
    (h2od : jsGetProp body2 "orderDetails" = .ok od2)
    (h2sp : jsGetProp body2 "soldProducts" = .ok sp2)
    (h2to : truthy od2 = true) (h2ts : truthy sp2 = true)
    (h2p : persist env2 sp2 od2 = .ok (ndb2, no2))
    (h2id : ∀ p ∈ spreadFields od2, p.1 ≠ "id")
    (hnow : env1.now ≠ env2.now) :
    (placeOrder env1 body1).status = 200 ∧
    (placeOrder env2 body2).status = 200 ∧
    (placeOrder env1 body1).orderId ≠ (placeOrder env2 body2).orderId := by
  rw [placeOrder_200 env1 body1 od1 sp1 ndb1 no1 h1od h1sp h1to h1ts h1p,
      placeOrder_200 env2 body2 od2 sp2 ndb2 no2 h2od h2sp h2to h2ts h2p]
  refine ⟨rfl, rfl, ?_⟩
  have e1 : no1 = newOrderOf env1 od1 := persist_ok_inv _ _ _ _ _ h1p
  have e2 : no2 = newOrderOf env2 od2 := persist_ok_inv _ _ _ _ _ h2p
  simp only [e1, e2, newOrderOf_id_fresh env1 od1 h1id, newOrderOf_id_fresh env2 od2 h2id]
  simp [hnow]

def c1EnvLater : Env := { c1Env with now := 2000 }

theorem C1_witness :
    (placeOrder c1Env c1BodyA).status = 200 ∧
    (placeOrder c1EnvLater c1BodyB).status = 200 ∧
    (placeOrder c1Env c1BodyA).orderId ≠ (placeOrder c1EnvLater c1BodyB).orderId :=
  C1_ids_distinct_for_distinct_times c1Env c1EnvLater c1BodyA c1BodyB
    (.obj [("name", .str "A"), ("items", .arr [])])
    (.obj [("name", .str "B"), ("items", .arr [])])
    (.arr []) (.arr []) _ _ _ _
    rfl rfl rfl rfl rfl (by decide)
    rfl rfl rfl rfl rfl (by decide)
    (by decide)

end Matex

namespace Matex

/-! ## C2 — the id/orderDate stamps and the spread override

The source builds `{ id: Date.now(), orderDate: ..., ...orderDetails }`
with the spread LAST, so client-supplied `id`/`orderDate` fields
override the fresh stamps rather than being replaced by them. -/

/-- Every field of the appended order, for an `orderDetails` object with
(JS-guaranteed) duplicate-free keys: the client's binding if present,
otherwise the fresh stamp for `id`/`orderDate` and `undefined` for
anything else. -/
theorem getFieldD_newOrderOf (env : Env) (od : JVal) (odf : List (String × JVal))
    (ho : od = .obj odf) (hnd : (odf.map Prod.fst).Nodup) (k : String) :
    getFieldD (newOrderOf env od) k =
      ((lookupField odf k).or (lookupField
        [("id", JVal.num env.now), ("orderDate", JVal.str env.nowISO)] k)).getD
        .undefined := by
  subst ho
  have hu : getFieldD (newOrderOf env (.obj odf)) k =
      (lookupField (odf.foldl (fun acc p => setField acc p.1 p.2)
        [("id", .num env.now), ("orderDate", .str env.nowISO)]) k).getD .undefined := rfl
  rw [hu, lookupField_foldl_nodup _ _ _ hnd]

def c2Env : Env :=
  { now := 1000, nowISO := "2025-01-01T00:00:00.000Z", sendMailOk := true,
    load := .ok (.obj [("shoes", .arr []), ("orders", .arr [])]),
    writeError := none, production := false }

def c2Body : JVal :=
  .obj [("orderDetails", .obj [("id", .num 999),
          ("orderDate", .str "1999-12-31T23:59:59.000Z"),
          ("name", .str "A"), ("items", .arr [])]),
        ("soldProducts", .arr [])]

/-- C2 fails as stated: a submission whose `orderDetails` carries its
own `id` and `orderDate` succeeds, yet the appended order and the
response keep the client's values (`999`, the 1999 date), not the fresh
stamp (`Date.now() = 1000`, the 2025 date). -/
theorem C2_counterexample :
    (placeOrder c2Env c2Body).status = 200 ∧
    (placeOrder c2Env c2Body).orderId = some (.num 999) ∧
    (placeOrder c2Env c2Body).orderId ≠ some (.num c2Env.now) ∧
    getFieldD (newOrderOf c2Env (getFieldD c2Body "orderDetails")) "orderDate" =
      .str "1999-12-31T23:59:59.000Z" := by
  refine ⟨rfl, rfl, ?_, rfl⟩
  intro h
  have h2 : JVal.num 999 = JVal.num 1000 := by
    have h1 : (placeOrder c2Env c2Body).orderId = some (JVal.num 999) := rfl
    rw [h1] at h
    exact Option.some.inj h
  exact absurd h2 (by simp)

/-- C2 amended: the handler stamps `id: Date.now()` and `orderDate`
first and then spreads `orderDetails` over them, so the appended order
(and the returned `orderId`, which is read off that order) carries the
fresh stamps exactly when `orderDetails` does not itself contain those
keys; a client-supplied `id`/`orderDate` overrides the stamps, and every
other field equals the submitted one. -/
theorem C2_stamps_unless_overridden :
    (∀ (env : Env) (od : JVal) (odf : List (String × JVal)),
      od = .obj odf → (odf.map Prod.fst).Nodup →
      (lookupField odf "id" = none →
        getFieldD (newOrderOf env od) "id" = .num env.now) ∧
      (∀ v, lookupField odf "id" = some v →
        getFieldD (newOrderOf env od) "id" = v) ∧
      (lookupField odf "orderDate" = none →
        getFieldD (newOrderOf env od) "orderDate" = .str env.nowISO) ∧
      (∀ v, lookupField odf "orderDate" = some v →
        getFieldD (newOrderOf env od) "orderDate" = v) ∧
      (∀ k, k ≠ "id" → k ≠ "orderDate" →
        getFieldD (newOrderOf env od) k = getFieldD od k)) ∧
    (∀ (env : Env) (body od sp ndb no : JVal),
      jsGetProp body "orderDetails" = .ok od →
      jsGetProp body "soldProducts" = .ok sp →
      truthy od = true → truthy sp = true →
      persist env sp od = .ok (ndb, no) →
      no = newOrderOf env od ∧
      (placeOrder env body).orderId = some (getFieldD (newOrderOf env od) "id")) := by
  constructor
  · intro env od odf ho hnd
    refine ⟨?_, ?_, ?_, ?_, ?_⟩
    · intro hnone
      rw [getFieldD_newOrderOf env od odf ho hnd "id", hnone]
      rfl
    · intro v hv
      rw [getFieldD_newOrderOf env od odf ho hnd "id", hv]
      rfl
    · intro hnone
      rw [getFieldD_newOrderOf env od odf ho hnd "orderDate", hnone]
      rfl
    · intro v hv
      rw [getFieldD_newOrderOf env od odf ho hnd "orderDate", hv]
      rfl
    · intro k hkid hkod
      rw [getFieldD_newOrderOf env od odf ho hnd k]
      have hbase : lookupField
          [("id", JVal.num env.now), ("orderDate", JVal.str env.nowISO)] k = none := by
        simp [lookupField, Ne.symm hkid, Ne.symm hkod]
      rw [hbase, ho]
      have hr : getFieldD (JVal.obj odf) k = (lookupField odf k).getD .undefined := rfl
      rw [hr]
      cases lookupField odf k <;> rfl
  · intro env body od sp ndb no hod hsp hto hts hp
    have e1 : no = newOrderOf env od := persist_ok_inv _ _ _ _ _ hp
    refine ⟨e1, ?_⟩
    rw [placeOrder_200 env body od sp ndb no hod hsp hto hts hp, e1]

theorem C2_witness :
    (getFieldD (newOrderOf c2Env (.obj [("name", JVal.str "A")])) "id" =
       .num c2Env.now ∧
     getFieldD (newOrderOf c2Env (.obj [("id", JVal.num 999)])) "id" =
       .num 999 ∧
     getFieldD (newOrderOf c2Env (.obj [("name", JVal.str "A")])) "name" =
       .str "A") ∧
    (placeOrder c2Env c1BodyA).orderId =
      some (getFieldD (newOrderOf c2Env
        (.obj [("name", .str "A"), ("items", .arr [])])) "id") :=
  ⟨⟨(C2_stamps_unless_overridden.1 c2Env _ [("name", JVal.str "A")] rfl
        (by decide)).1 rfl,
    ((C2_stamps_unless_overridden.1 c2Env _ [("id", JVal.num 999)] rfl
        (by decide)).2.1) (JVal.num 999) rfl,
    ((C2_stamps_unless_overridden.1 c2Env _ [("name", JVal.str "A")] rfl
        (by decide)).2.2.2.2) "name" (by decide) (by decide)⟩,
   (C2_stamps_unless_overridden.2 c2Env c1BodyA
      (.obj [("name", .str "A"), ("items", .arr [])]) (.arr []) _ _
      rfl rfl rfl rfl rfl).2⟩

end Matex

namespace Matex

/-! ## C3 — notifier failure is isolated -/

/-- C3: the caller-visible outcome never depends on the mail
transport's success, and with an always-failing notifier a valid
submission is still answered 200 with a valid `orderId` and the order
still lands in the stored document. -/
theorem C3_notification_failure_isolated :
    (∀ (env : Env) (b1 b2 : Bool) (body : JVal),
      coreOut (placeOrder { env with sendMailOk := b1 } body) =
      coreOut (placeOrder { env with sendMailOk := b2 } body)) ∧
    (∀ (env : Env) (body od sp : JVal) (dbf : List (String × JVal))
        (shoes newShoes os : List JVal),
      env.sendMailOk = false →
      jsGetProp body "orderDetails" = .ok od →
      jsGetProp body "soldProducts" = .ok sp →
      truthy od = true → truthy sp = true →
      env.load = .ok (.obj dbf) →
      lookupField dbf "shoes" = some (.arr shoes) →
      mapE (shoeStep sp) shoes = .ok newShoes →
      ordersInit ((lookupField dbf "orders").getD .undefined) = .arr os →
      env.writeError = none →
      (placeOrder env body).status = 200 ∧
      (placeOrder env body).success = true ∧
      (placeOrder env body).errorVal = none ∧
      (placeOrder env body).orderId = some (getFieldD (newOrderOf env od) "id") ∧
      (placeOrder env body).store = .ok (persistedDoc env od dbf newShoes os) ∧
      getFieldD (persistedDoc env od dbf newShoes os) "orders" =
        .arr (os ++ [newOrderOf env od])) := by
  constructor
  · intro env b1 b2 body
    unfold placeOrder
    cases hdes : (do
        let od ← jsGetProp body "orderDetails"
        let sp ← jsGetProp body "soldProducts"
        pure (od, sp) : Except String (JVal × JVal)) with
    | error e => simp only [hdes]; rfl
    | ok p =>
        obtain ⟨od, sp⟩ := p
        simp only [hdes]
        by_cases ht : (truthy od && truthy sp) = true
        · rw [if_pos ht, if_pos ht, persist_ignores_mail env b1 sp od,
            persist_ignores_mail env b2 sp od]
          cases hp : persist env sp od with
          | ok pr => rfl
          | error e => rfl
        · rw [if_neg ht, if_neg ht]
  · intro env body od sp dbf shoes newShoes os hmail hod hsp hto hts hload hshoes
      hmap hord hw
    have hp := persist_ok env sp od dbf shoes newShoes os hload hshoes hmap hord hw
    rw [placeOrder_200 env body od sp _ _ hod hsp hto hts hp]
    refine ⟨rfl, rfl, rfl, rfl, rfl, ?_⟩
    have h1 : getFieldD (persistedDoc env od dbf newShoes os) "orders" =
        (lookupField (setField (setField dbf "shoes" (.arr newShoes)) "orders"
          (.arr (os ++ [newOrderOf env od]))) "orders").getD .undefined := rfl
    rw [h1, lookupField_setField_self]
    rfl

def wEnvNoMail : Env :=
  { now := 1000, nowISO := "2025-06-01T00:00:00.000Z", sendMailOk := false,
    load := .ok (.obj
      [("shoes", .arr [.obj [("id", .num 7), ("name", .str "Shoe"),
          ("isSoldOut", .bool false)]]),
       ("orders", .arr [.obj [("id", .num 1)]])]),
    writeError := none, production := false }

def wBody : JVal :=
  .obj [("orderDetails", .obj [("name", .str "A"), ("email", .str "a@x.com"),
          ("items", .arr [.obj [("id", .num 7), ("name", .str "Shoe"),
            ("price", .num 100)]]),
          ("total", .num 100), ("paymentMethod", .str "COD")]),
        ("soldProducts", .arr [.num 7])]

theorem C3_witness :
    coreOut (placeOrder { wEnvNoMail with sendMailOk := false } wBody) =
      coreOut (placeOrder { wEnvNoMail with sendMailOk := true } wBody) ∧
    ((placeOrder wEnvNoMail wBody).status = 200 ∧
     (placeOrder wEnvNoMail wBody).success = true ∧
     (placeOrder wEnvNoMail wBody).errorVal = none ∧
     (placeOrder wEnvNoMail wBody).orderId =
       some (getFieldD (newOrderOf wEnvNoMail
         (.obj [("name", .str "A"), ("email", .str "a@x.com"),
           ("items", .arr [.obj [("id", .num 7), ("name", .str "Shoe"),
             ("price", .num 100)]]),
           ("total", .num 100), ("paymentMethod", .str "COD")])) "id") ∧
     (placeOrder wEnvNoMail wBody).store = .ok (persistedDoc wEnvNoMail
       (.obj [("name", .str "A"), ("email", .str "a@x.com"),
         ("items", .arr [.obj [("id", .num 7), ("name", .str "Shoe"),
           ("price", .num 100)]]),
         ("total", .num 100), ("paymentMethod", .str "COD")])
       [("shoes", .arr [.obj [("id", .num 7), ("name", .str "Shoe"),
           ("isSoldOut", .bool false)]]),
        ("orders", .arr [.obj [("id", .num 1)]])]
       [.obj [("id", .num 7), ("name", .str "Shoe"), ("isSoldOut", .bool true)]]
       [.obj [("id", .num 1)]]) ∧
     getFieldD (persistedDoc wEnvNoMail
       (.obj [("name", .str "A"), ("email", .str "a@x.com"),
         ("items", .arr [.obj [("id", .num 7), ("name", .str "Shoe"),
           ("price", .num 100)]]),
         ("total", .num 100), ("paymentMethod", .str "COD")])
       [("shoes", .arr [.obj [("id", .num 7), ("name", .str "Shoe"),
           ("isSoldOut", .bool false)]]),
        ("orders", .arr [.obj [("id", .num 1)]])]
       [.obj [("id", .num 7), ("name", .str "Shoe"), ("isSoldOut", .bool true)]]
       [.obj [("id", .num 1)]]) "orders" =
       .arr ([.obj [("id", .num 1)]] ++ [newOrderOf wEnvNoMail
         (.obj [("name", .str "A"), ("email", .str "a@x.com"),
           ("items", .arr [.obj [("id", .num 7), ("name", .str "Shoe"),
             ("price", .num 100)]]),
           ("total", .num 100), ("paymentMethod", .str "COD")])])) :=
  ⟨C3_notification_failure_isolated.1 wEnvNoMail false true wBody,
   C3_notification_failure_isolated.2 wEnvNoMail wBody _ (.arr [.num 7]) _ _ _ _
     rfl rfl rfl rfl rfl rfl rfl rfl rfl rfl⟩

end Matex

namespace Matex

/-! ## C4 — sold products are flagged, everything else untouched -/

theorem updateShoe_isSoldOut (l : List JVal) (fs : List (String × JVal)) :
    getFieldD (updateShoe l (.obj fs)) "isSoldOut" =
      (if l.any (fun e => sameValueZero e ((lookupField fs "id").getD .undefined))
       then .bool true else (lookupField fs "isSoldOut").getD .undefined) := by
  have hu : getFieldD (updateShoe l (.obj fs)) "isSoldOut" =
      (lookupField (setField fs "isSoldOut"
        (if l.any (fun e => sameValueZero e ((lookupField fs "id").getD .undefined))
         then .bool true else (lookupField fs "isSoldOut").getD .undefined))
        "isSoldOut").getD .undefined := rfl
  rw [hu, lookupField_setField_self]
  rfl

theorem updateShoe_not_listed (l : List JVal) (fs : List (String × JVal)) (v : JVal)
    (hany : l.any (fun e => sameValueZero e ((lookupField fs "id").getD .undefined)) = false)
    (hv : lookupField fs "isSoldOut" = some v) :
    updateShoe l (.obj fs) = .obj fs := by
  have hu : updateShoe l (.obj fs) = .obj (setField fs "isSoldOut"
      (if l.any (fun e => sameValueZero e ((lookupField fs "id").getD .undefined))
       then .bool true else (lookupField fs "isSoldOut").getD .undefined)) := rfl
  rw [hu, hany]
  simp only [Bool.false_eq_true, if_false, hv, Option.getD_some,
    setField_lookup_eq fs _ v hv]

/-- C4: after a successful submission every stored product whose id is
in the submitted `soldProducts` array carries `isSoldOut: true`; a
product not listed keeps its record verbatim (given it has the
`isSoldOut` field of the Product shape); ids without a matching product
are silently ignored (the call still succeeds, the product list is just
mapped); and a true `isSoldOut` is never flipped back to false. -/
theorem C4_sold_products_marked (env : Env) (body od : JVal) (l : List JVal)
    (dbf : List (String × JVal)) (shoes os : List JVal)
    (hod : jsGetProp body "orderDetails" = .ok od)
    (hsp : jsGetProp body "soldProducts" = .ok (.arr l))
    (hto : truthy od = true)
    (hobj : ∀ s ∈ shoes, ∃ fs, s = JVal.obj fs)
    (hload : env.load = .ok (.obj dbf))
    (hshoes : lookupField dbf "shoes" = some (.arr shoes))
    (hord : ordersInit ((lookupField dbf "orders").getD .undefined) = .arr os)
    (hw : env.writeError = none) :
    (placeOrder env body).status = 200 ∧
    (placeOrder env body).success = true ∧
    (placeOrder env body).store =
      .ok (persistedDoc env od dbf (shoes.map (updateShoe l)) os) ∧
    getFieldD (persistedDoc env od dbf (shoes.map (updateShoe l)) os) "shoes" =
      .arr (shoes.map (updateShoe l)) ∧
    (∀ fs, JVal.obj fs ∈ shoes →
      (l.any (fun e => sameValueZero e ((lookupField fs "id").getD .undefined)) = true →
        getFieldD (updateShoe l (.obj fs)) "isSoldOut" = .bool true) ∧
      (l.any (fun e => sameValueZero e ((lookupField fs "id").getD .undefined)) = false →
        ∀ v, lookupField fs "isSoldOut" = some v → updateShoe l (.obj fs) = .obj fs) ∧
      (lookupField fs "isSoldOut" = some (.bool true) →
        getFieldD (updateShoe l (.obj fs)) "isSoldOut" = .bool true)) := by
  have hmap := mapE_shoeStep l shoes hobj
  have hp := persist_ok env (.arr l) od dbf shoes (shoes.map (updateShoe l)) os
    hload hshoes hmap hord hw
  rw [placeOrder_200 env body od (.arr l) _ _ hod hsp hto rfl hp]
  refine ⟨rfl, rfl, rfl, ?_, ?_⟩
  · have h2 : getFieldD (persistedDoc env od dbf (shoes.map (updateShoe l)) os) "shoes" =
        (lookupField (setField (setField dbf "shoes" (.arr (shoes.map (updateShoe l))))
          "orders" (.arr (os ++ [newOrderOf env od]))) "shoes").getD .undefined := rfl
    rw [h2, lookupField_setField_other _ _ _ _ (by decide), lookupField_setField_self]
    rfl
  · intro fs _
    refine ⟨?_, ?_, ?_⟩
    · intro hany
      rw [updateShoe_isSoldOut, hany]
      rfl
    · intro hany v hv
      exact updateShoe_not_listed l fs v hany hv
    · intro hv
      rw [updateShoe_isSoldOut]
      by_cases hany : l.any
          (fun e => sameValueZero e ((lookupField fs "id").getD .undefined)) = true
      · rw [hany]; rfl
      · rw [Bool.not_eq_true] at hany
        rw [hany, hv]
        rfl

def c4Env : Env :=
  { now := 1000, nowISO := "2025-06-01T00:00:00.000Z", sendMailOk := true,
    load := .ok (.obj
      [("shoes", .arr
         [.obj [("id", .num 7), ("name", .str "Shoe"), ("isSoldOut", .bool false)],
          .obj [("id", .num 8), ("isSoldOut", .bool false)],
          .obj [("id", .num 9), ("isSoldOut", .bool true)]]),
       ("orders", .arr [])]),
    writeError := none, production := false }

def c4Body : JVal :=
  .obj [("orderDetails", .obj [("name", .str "A"), ("items", .arr [])]),
        ("soldProducts", .arr [.num 7, .num 9, .num 42])]

theorem C4_witness :
    (placeOrder c4Env c4Body).status = 200 ∧
    (placeOrder c4Env c4Body).success = true ∧
    (placeOrder c4Env c4Body).store =
      .ok (persistedDoc c4Env (.obj [("name", .str "A"), ("items", .arr [])])
        [("shoes", .arr
           [.obj [("id", .num 7), ("name", .str "Shoe"), ("isSoldOut", .bool false)],
            .obj [("id", .num 8), ("isSoldOut", .bool false)],
            .obj [("id", .num 9), ("isSoldOut", .bool true)]]),
         ("orders", .arr [])]
        ([.obj [("id", .num 7), ("name", .str "Shoe"), ("isSoldOut", .bool false)],
          .obj [("id", .num 8), ("isSoldOut", .bool false)],
          .obj [("id", .num 9), ("isSoldOut", .bool true)]].map
          (updateShoe [.num 7, .num 9, .num 42])) []) ∧
    getFieldD (persistedDoc c4Env (.obj [("name", .str "A"), ("items", .arr [])])
        [("shoes", .arr
           [.obj [("id", .num 7), ("name", .str "Shoe"), ("isSoldOut", .bool false)],
            .obj [("id", .num 8), ("isSoldOut", .bool false)],
            .obj [("id", .num 9), ("isSoldOut", .bool true)]]),
         ("orders", .arr [])]
        ([.obj [("id", .num 7), ("name", .str "Shoe"), ("isSoldOut", .bool false)],
          .obj [("id", .num 8), ("isSoldOut", .bool false)],
          .obj [("id", .num 9), ("isSoldOut", .bool true)]].map
          (updateShoe [.num 7, .num 9, .num 42])) []) "shoes" =
      .arr ([.obj [("id", .num 7), ("name", .str "Shoe"), ("isSoldOut", .bool false)],
          .obj [("id", .num 8), ("isSoldOut", .bool false)],
          .obj [("id", .num 9), ("isSoldOut", .bool true)]].map
          (updateShoe [.num 7, .num 9, .num 42])) ∧
    (∀ fs, JVal.obj fs ∈
        [JVal.obj [("id", JVal.num 7), ("name", JVal.str "Shoe"),
           ("isSoldOut", JVal.bool false)],
         JVal.obj [("id", JVal.num 8), ("isSoldOut", JVal.bool false)],
         JVal.obj [("id", JVal.num 9), ("isSoldOut", JVal.bool true)]] →
      ([JVal.num 7, JVal.num 9, JVal.num 42].any
          (fun e => sameValueZero e ((lookupField fs "id").getD .undefined)) = true →
        getFieldD (updateShoe [JVal.num 7, JVal.num 9, JVal.num 42] (.obj fs))
          "isSoldOut" = .bool true) ∧
      ([JVal.num 7, JVal.num 9, JVal.num 42].any
          (fun e => sameValueZero e ((lookupField fs "id").getD .undefined)) = false →
        ∀ v, lookupField fs "isSoldOut" = some v →
          updateShoe [JVal.num 7, JVal.num 9, JVal.num 42] (.obj fs) = .obj fs) ∧
      (lookupField fs "isSoldOut" = some (.bool true) →
        getFieldD (updateShoe [JVal.num 7, JVal.num 9, JVal.num 42] (.obj fs))
          "isSoldOut" = .bool true)) :=
  C4_sold_products_marked c4Env c4Body (.obj [("name", .str "A"), ("items", .arr [])])
    [.num 7, .num 9, .num 42]
    [("shoes", .arr
       [.obj [("id", .num 7), ("name", .str "Shoe"), ("isSoldOut", .bool false)],
        .obj [("id", .num 8), ("isSoldOut", .bool false)],
        .obj [("id", .num 9), ("isSoldOut", .bool true)]]),
     ("orders", .arr [])]
    [.obj [("id", .num 7), ("name", .str "Shoe"), ("isSoldOut", .bool false)],
     .obj [("id", .num 8), ("isSoldOut", .bool false)],
     .obj [("id", .num 9), ("isSoldOut", .bool true)]] []
    rfl rfl rfl
    (by
      intro s hs
      simp only [List.mem_cons, List.not_mem_nil, or_false] at hs
      rcases hs with h | h | h <;> exact ⟨_, h⟩)
    rfl rfl rfl rfl

/-! ## C7 — the orders collection is append-only -/

/-- C7: a successful submission writes back the loaded document with
exactly the old orders in their original positions followed by the one
new order, and with a `shoes` array of unchanged length. -/
theorem C7_orders_append_only (env : Env) (body od sp : JVal)
    (dbf : List (String × JVal)) (shoes newShoes os : List JVal)
    (hod : jsGetProp body "orderDetails" = .ok od)
    (hsp : jsGetProp body "soldProducts" = .ok sp)
    (hto : truthy od = true) (hts : truthy sp = true)
    (hload : env.load = .ok (.obj dbf))
    (hshoes : lookupField dbf "shoes" = some (.arr shoes))
    (hmap : mapE (shoeStep sp) shoes = .ok newShoes)
    (horders : lookupField dbf "orders" = some (.arr os))
    (hw : env.writeError = none) :
    (placeOrder env body).status = 200 ∧
    (placeOrder env body).store = .ok (persistedDoc env od dbf newShoes os) ∧
    getFieldD (persistedDoc env od dbf newShoes os) "orders" =
      .arr (os ++ [newOrderOf env od]) ∧
    getFieldD (persistedDoc env od dbf newShoes os) "shoes" = .arr newShoes ∧
    newShoes.length = shoes.length := by
  have hord : ordersInit ((lookupField dbf "orders").getD .undefined) = .arr os := by
    rw [horders]; rfl
  have hp := persist_ok env sp od dbf shoes newShoes os hload hshoes hmap hord hw
  rw [placeOrder_200 env body od sp _ _ hod hsp hto hts hp]
  refine ⟨rfl, rfl, ?_, ?_, mapE_length _ _ _ hmap⟩
  · have h1 : getFieldD (persistedDoc env od dbf newShoes os) "orders" =
        (lookupField (setField (setField dbf "shoes" (.arr newShoes)) "orders"
          (.arr (os ++ [newOrderOf env od]))) "orders").getD .undefined := rfl
    rw [h1, lookupField_setField_self]
    rfl
  · have h2 : getFieldD (persistedDoc env od dbf newShoes os) "shoes" =
        (lookupField (setField (setField dbf "shoes" (.arr newShoes)) "orders"
          (.arr (os ++ [newOrderOf env od]))) "shoes").getD .undefined := rfl
    rw [h2, lookupField_setField_other _ _ _ _ (by decide), lookupField_setField_self]
    rfl

def c7Env : Env :=
  { now := 1000, nowISO := "2025-06-01T00:00:00.000Z", sendMailOk := true,
    load := .ok (.obj
      [("shoes", .arr [.obj [("id", .num 7), ("isSoldOut", .bool false)]]),
       ("orders", .arr [.obj [("id", .num 1)], .obj [("id", .num 2)]])]),
    writeError := none, production := false }

def c7Body : JVal :=
  .obj [("orderDetails", .obj [("name", .str "A"), ("items", .arr [])]),
        ("soldProducts", .arr [.num 7])]

theorem C7_witness :
    (placeOrder c7Env c7Body).status = 200 ∧
    (placeOrder c7Env c7Body).store = .ok (persistedDoc c7Env
      (.obj [("name", .str "A"), ("items", .arr [])])
      [("shoes", .arr [.obj [("id", .num 7), ("isSoldOut", .bool false)]]),
       ("orders", .arr [.obj [("id", .num 1)], .obj [("id", .num 2)]])]
      [.obj [("id", .num 7), ("isSoldOut", .bool true)]]
      [.obj [("id", .num 1)], .obj [("id", .num 2)]]) ∧
    getFieldD (persistedDoc c7Env
      (.obj [("name", .str "A"), ("items", .arr [])])
      [("shoes", .arr [.obj [("id", .num 7), ("isSoldOut", .bool false)]]),
       ("orders", .arr [.obj [("id", .num 1)], .obj [("id", .num 2)]])]
      [.obj [("id", .num 7), ("isSoldOut", .bool true)]]
      [.obj [("id", .num 1)], .obj [("id", .num 2)]]) "orders" =
      .arr ([.obj [("id", .num 1)], .obj [("id", .num 2)]] ++
        [newOrderOf c7Env (.obj [("name", .str "A"), ("items", .arr [])])]) ∧
    getFieldD (persistedDoc c7Env
      (.obj [("name", .str "A"), ("items", .arr [])])
      [("shoes", .arr [.obj [("id", .num 7), ("isSoldOut", .bool false)]]),
       ("orders", .arr [.obj [("id", .num 1)], .obj [("id", .num 2)]])]
      [.obj [("id", .num 7), ("isSoldOut", .bool true)]]
      [.obj [("id", .num 1)], .obj [("id", .num 2)]]) "shoes" =
      .arr [.obj [("id", .num 7), ("isSoldOut", .bool true)]] ∧
    ([JVal.obj [("id", JVal.num 7), ("isSoldOut", JVal.bool true)]] : List JVal).length =
      ([JVal.obj [("id", JVal.num 7), ("isSoldOut", JVal.bool false)]] : List JVal).length :=
  C7_orders_append_only c7Env c7Body
    (.obj [("name", .str "A"), ("items", .arr [])]) (.arr [.num 7])
    [("shoes", .arr [.obj [("id", .num 7), ("isSoldOut", .bool false)]]),
     ("orders", .arr [.obj [("id", .num 1)], .obj [("id", .num 2)]])]
    [.obj [("id", .num 7), ("isSoldOut", .bool false)]]
    [.obj [("id", .num 7), ("isSoldOut", .bool true)]]
    [.obj [("id", .num 1)], .obj [("id", .num 2)]]
    rfl rfl rfl rfl rfl rfl rfl rfl rfl

end Matex

namespace Matex

/-! ## C8 — malformed `items` is swallowed by the email boundary -/

/-- C8: when `orderDetails.items` is absent or not an array, the
`TypeError` from `items.map` is raised while the mail body is built,
inside the email `try`, so it is swallowed: no notification goes out
but the order is persisted and the call is answered 200. -/
theorem C8_malformed_items_swallowed (env : Env) (body od sp iv : JVal)
    (dbf : List (String × JVal)) (shoes newShoes os : List JVal)
    (hod : jsGetProp body "orderDetails" = .ok od)
    (hsp : jsGetProp body "soldProducts" = .ok sp)
    (hto : truthy od = true) (hts : truthy sp = true)
    (hitems : jsGetProp od "items" = .ok iv)
    (hniv : ∀ xs, iv ≠ .arr xs)
    (hload : env.load = .ok (.obj dbf))
    (hshoes : lookupField dbf "shoes" = some (.arr shoes))
    (hmap : mapE (shoeStep sp) shoes = .ok newShoes)
    (hord : ordersInit ((lookupField dbf "orders").getD .undefined) = .arr os)
    (hw : env.writeError = none) :
    (placeOrder env body).status = 200 ∧
    (placeOrder env body).success = true ∧
    (placeOrder env body).notified = false ∧
    (placeOrder env body).store = .ok (persistedDoc env od dbf newShoes os) ∧
    getFieldD (persistedDoc env od dbf newShoes os) "orders" =
      .arr (os ++ [newOrderOf env od]) := by
  have hp := persist_ok env sp od dbf shoes newShoes os hload hshoes hmap hord hw
  rw [placeOrder_200 env body od sp _ _ hod hsp hto hts hp]
  refine ⟨rfl, rfl, ?_, rfl, ?_⟩
  · show notifyOutcome env od = false
    unfold notifyOutcome
    rw [mailBuild_items_not_arr od iv hto hitems hniv]
  · have h1 : getFieldD (persistedDoc env od dbf newShoes os) "orders" =
        (lookupField (setField (setField dbf "shoes" (.arr newShoes)) "orders"
          (.arr (os ++ [newOrderOf env od]))) "orders").getD .undefined := rfl
    rw [h1, lookupField_setField_self]
    rfl

def c8Env : Env :=
  { now := 1000, nowISO := "2025-06-01T00:00:00.000Z", sendMailOk := true,
    load := .ok (.obj
      [("shoes", .arr [.obj [("id", .num 7), ("isSoldOut", .bool false)]]),
       ("orders", .arr [])]),
    writeError := none, production := false }

def c8Body : JVal :=
  .obj [("orderDetails", .obj [("name", .str "A")]),
        ("soldProducts", .arr [.num 7])]

theorem C8_witness :
    (placeOrder c8Env c8Body).status = 200 ∧
    (placeOrder c8Env c8Body).success = true ∧
    (placeOrder c8Env c8Body).notified = false ∧
    (placeOrder c8Env c8Body).store = .ok (persistedDoc c8Env
      (.obj [("name", .str "A")])
      [("shoes", .arr [.obj [("id", .num 7), ("isSoldOut", .bool false)]]),
       ("orders", .arr [])]
      [.obj [("id", .num 7), ("isSoldOut", .bool true)]] []) ∧
    getFieldD (persistedDoc c8Env (.obj [("name", .str "A")])
      [("shoes", .arr [.obj [("id", .num 7), ("isSoldOut", .bool false)]]),
       ("orders", .arr [])]
      [.obj [("id", .num 7), ("isSoldOut", .bool true)]] []) "orders" =
      .arr ([] ++ [newOrderOf c8Env (.obj [("name", .str "A")])]) :=
  C8_malformed_items_swallowed c8Env c8Body (.obj [("name", .str "A")])
    (.arr [.num 7]) .undefined
    [("shoes", .arr [.obj [("id", .num 7), ("isSoldOut", .bool false)]]),
     ("orders", .arr [])]
    [.obj [("id", .num 7), ("isSoldOut", .bool false)]]
    [.obj [("id", .num 7), ("isSoldOut", .bool true)]] []
    rfl rfl rfl rfl rfl (fun _ h => JVal.noConfusion h) rfl rfl rfl rfl rfl

end Matex

namespace Matex

/-! ## C9 — validation is truthiness only, and the outcome beyond 400/500

`soldProducts` needs no particular shape to pass validation; but a
truthy *string* has its own `includes` method (substring search over
the stringified id), so it does not fail in the persist step the way a
number does — the claim's universal 500 outcome is refuted by strings. -/

def c9Env : Env :=
  { now := 1000, nowISO := "2025-06-01T00:00:00.000Z", sendMailOk := true,
    load := .ok (.obj
      [("shoes", .arr [.obj [("id", .num 7), ("isSoldOut", .bool false)]]),
       ("orders", .arr [])]),
    writeError := none, production := false }

def c9Od : JVal := .obj [("name", .str "A"), ("items", .arr [])]

def c9Body : JVal := .obj [("orderDetails", c9Od), ("soldProducts", .str "7")]

/-- C9 fails as stated: `soldProducts: "7"` is truthy and not a list,
yet the call is answered 200 (not 500) and the store changes —
`"7".includes(7)` is a substring test that succeeds, so product 7 is
even marked sold. -/
theorem C9_counterexample :
    truthy (.str "7") = true ∧ (∀ xs, JVal.str "7" ≠ .arr xs) ∧
    (placeOrder c9Env c9Body).status = 200 ∧
    (placeOrder c9Env c9Body).success = true ∧
    (placeOrder c9Env c9Body).store ≠ c9Env.load := by
  have hjs : jsIncludes (.str "7") (.num 7) = .ok true := by
    have h1 : jsIncludes (.str "7") (.num 7) =
        .ok (strHas "7" (jsToString (.num 7))) := rfl
    have h2 : jsToString (JVal.num 7) = "7" := by
      simp only [jsToString]
      rfl
    rw [h1, h2]
    rfl
  have hs : shoeStep (.str "7") (.obj [("id", .num 7), ("isSoldOut", .bool false)]) =
      .ok (.obj [("id", .num 7), ("isSoldOut", .bool true)]) := by
    have h1 : shoeStep (.str "7") (.obj [("id", .num 7), ("isSoldOut", .bool false)]) =
        match jsIncludes (.str "7") (.num 7) with
        | .error err => .error err
        | .ok inc => .ok (.obj (setField [("id", JVal.num 7), ("isSoldOut", JVal.bool false)]
            "isSoldOut" (if inc then .bool true else .bool false))) := rfl
    rw [h1, hjs]
    rfl
  have hmap7 : mapE (shoeStep (.str "7"))
      [.obj [("id", .num 7), ("isSoldOut", .bool false)]] =
      .ok [.obj [("id", .num 7), ("isSoldOut", .bool true)]] := by
    have h1 : mapE (shoeStep (.str "7"))
        [.obj [("id", .num 7), ("isSoldOut", .bool false)]] =
        match shoeStep (.str "7") (.obj [("id", .num 7), ("isSoldOut", .bool false)]) with
        | .error err => .error err
        | .ok y => .ok [y] := by
      simp only [mapE, bind, Except.bind]
      cases shoeStep (.str "7") (.obj [("id", .num 7), ("isSoldOut", .bool false)]) <;> rfl
    rw [h1, hs]
  have hp := persist_ok c9Env (.str "7") c9Od
    [("shoes", .arr [.obj [("id", .num 7), ("isSoldOut", .bool false)]]),
     ("orders", .arr [])]
    [.obj [("id", .num 7), ("isSoldOut", .bool false)]]
    [.obj [("id", .num 7), ("isSoldOut", .bool true)]] []
    rfl rfl hmap7 rfl rfl
  rw [placeOrder_200 c9Env c9Body c9Od (.str "7") _ _ rfl rfl rfl rfl hp]
  refine ⟨rfl, fun _ h => JVal.noConfusion h, rfl, rfl, ?_⟩
  intro h
  have h2 := Except.ok.inj h
  have h3 : persistedDoc c9Env c9Od
      [("shoes", .arr [.obj [("id", .num 7), ("isSoldOut", .bool false)]]),
       ("orders", .arr [])]
      [.obj [("id", .num 7), ("isSoldOut", .bool true)]] [] =
      .obj [("shoes", .arr [.obj [("id", .num 7), ("isSoldOut", .bool true)]]),
            ("orders", .arr [.obj [("id", .num 1000),
              ("orderDate", .str "2025-06-01T00:00:00.000Z"),
              ("name", .str "A"), ("items", .arr [])]])] := rfl
  rw [h3] at h2
  simp at h2

/-- C9 amended: validation checks truthiness only.  A truthy
`soldProducts` with no `includes` method (for example a nonzero number)
passes validation and makes the persist step throw at the first
membership test, so a store with at least one product yields a 500 with
the store unchanged; a truthy string instead runs a substring-based
`includes` (see the counterexample, where it succeeds with 200); a
falsy value for either field is rejected with 400 as if missing. -/
theorem C9_truthiness_only_validation :
    (∀ (env : Env) (body od : JVal) (k : Int) (dbf sfs : List (String × JVal))
        (rest : List JVal),
      jsGetProp body "orderDetails" = .ok od →
      jsGetProp body "soldProducts" = .ok (.num k) →
      truthy od = true → k ≠ 0 →
      env.load = .ok (.obj dbf) →
      lookupField dbf "shoes" = some (.arr (.obj sfs :: rest)) →
      (placeOrder env body).status = 500 ∧
      (placeOrder env body).success = false ∧
      (placeOrder env body).store = env.load) ∧
    (∀ (env : Env) (body od sp : JVal),
      jsGetProp body "orderDetails" = .ok od →
      jsGetProp body "soldProducts" = .ok sp →
      (truthy od = false ∨ truthy sp = false) →
      (placeOrder env body).status = 400 ∧
      (placeOrder env body).store = env.load) := by
  constructor
  · intro env body od k dbf sfs rest hod hsp hto hk hload hshoes
    have hts : truthy (.num k) = true := by simp [truthy, hk]
    have hperr := persist_includes_error env (.num k) od
      "TypeError: soldProducts.includes is not a function" dbf sfs rest hload hshoes rfl
    rw [placeOrder_500 env body od (.num k) _ hod hsp hto hts hperr]
    exact ⟨rfl, rfl, rfl⟩
  · intro env body od sp hod hsp hf
    rw [placeOrder_400 env body od sp hod hsp hf]
    exact ⟨rfl, rfl⟩

def c9NumBody : JVal := .obj [("orderDetails", c9Od), ("soldProducts", .num 5)]

def c9FalsyBody : JVal := .obj [("orderDetails", c9Od), ("soldProducts", .str "")]

theorem C9_witness :
    ((placeOrder c9Env c9NumBody).status = 500 ∧
     (placeOrder c9Env c9NumBody).success = false ∧
     (placeOrder c9Env c9NumBody).store = c9Env.load) ∧
    ((placeOrder c9Env c9FalsyBody).status = 400 ∧
     (placeOrder c9Env c9FalsyBody).store = c9Env.load) :=
  ⟨C9_truthiness_only_validation.1 c9Env c9NumBody c9Od 5
      [("shoes", .arr [.obj [("id", .num 7), ("isSoldOut", .bool false)]]),
       ("orders", .arr [])]
      [("id", .num 7), ("isSoldOut", .bool false)] []
      rfl rfl rfl (by decide) rfl rfl,
   C9_truthiness_only_validation.2 c9Env c9FalsyBody c9Od (.str "")
      rfl rfl (Or.inr rfl)⟩

/-! ## C10 — a missing orders key is healed, a missing shoes key is fatal -/

/-- C10: a loaded document without an `orders` key still persists
successfully — the written document gets an `orders` array whose single
(hence last) element is the new order — whereas a document without a
`shoes` key makes `db.shoes.map` throw, answering 500 with the store
unchanged. -/
theorem C10_missing_collections :
    (∀ (env : Env) (body od sp : JVal) (dbf : List (String × JVal))
        (shoes newShoes : List JVal),
      jsGetProp body "orderDetails" = .ok od →
      jsGetProp body "soldProducts" = .ok sp →
      truthy od = true → truthy sp = true →
      env.load = .ok (.obj dbf) →
      lookupField dbf "shoes" = some (.arr shoes) →
      mapE (shoeStep sp) shoes = .ok newShoes →
      lookupField dbf "orders" = none →
      env.writeError = none →
      (placeOrder env body).status = 200 ∧
      (placeOrder env body).success = true ∧
      (placeOrder env body).store = .ok (persistedDoc env od dbf newShoes []) ∧
      getFieldD (persistedDoc env od dbf newShoes []) "orders" =
        .arr [newOrderOf env od]) ∧
    (∀ (env : Env) (body od sp : JVal) (dbf : List (String × JVal)),
      jsGetProp body "orderDetails" = .ok od →
      jsGetProp body "soldProducts" = .ok sp →
      truthy od = true → truthy sp = true →
      env.load = .ok (.obj dbf) →
      lookupField dbf "shoes" = none →
      (placeOrder env body).status = 500 ∧
      (placeOrder env body).success = false ∧
      (placeOrder env body).store = env.load) := by
  constructor
  · intro env body od sp dbf shoes newShoes hod hsp hto hts hload hshoes hmap hno hw
    have hord : ordersInit ((lookupField dbf "orders").getD .undefined) = .arr [] := by
      rw [hno]; rfl
    have hp := persist_ok env sp od dbf shoes newShoes [] hload hshoes hmap hord hw
    rw [placeOrder_200 env body od sp _ _ hod hsp hto hts hp]
    refine ⟨rfl, rfl, rfl, ?_⟩
    have h1 : getFieldD (persistedDoc env od dbf newShoes []) "orders" =
        (lookupField (setField (setField dbf "shoes" (.arr newShoes)) "orders"
          (.arr ([] ++ [newOrderOf env od]))) "orders").getD .undefined := rfl
    rw [h1, lookupField_setField_self]
    rfl
  · intro env body od sp dbf hod hsp hto hts hload hns
    have hperr := persist_shoes_not_arr env sp od .undefined dbf hload
      (by rw [hns]; rfl) (fun _ h => JVal.noConfusion h)
    rw [placeOrder_500 env body od sp _ hod hsp hto hts hperr]
    exact ⟨rfl, rfl, rfl⟩

def c10EnvNoOrders : Env :=
  { now := 1000, nowISO := "2025-06-01T00:00:00.000Z", sendMailOk := true,
    load := .ok (.obj
      [("shoes", .arr [.obj [("id", .num 7), ("isSoldOut", .bool false)]])]),
    writeError := none, production := false }

def c10EnvNoShoes : Env :=
  { now := 1000, nowISO := "2025-06-01T00:00:00.000Z", sendMailOk := true,
    load := .ok (.obj [("orders", .arr [])]),
    writeError := none, production := false }

def c10Body : JVal :=
  .obj [("orderDetails", .obj [("name", .str "A"), ("items", .arr [])]),
        ("soldProducts", .arr [.num 7])]

theorem C10_witness :
    ((placeOrder c10EnvNoOrders c10Body).status = 200 ∧
     (placeOrder c10EnvNoOrders c10Body).success = true ∧
     (placeOrder c10EnvNoOrders c10Body).store = .ok (persistedDoc c10EnvNoOrders
       (.obj [("name", .str "A"), ("items", .arr [])])
       [("shoes", .arr [.obj [("id", .num 7), ("isSoldOut", .bool false)]])]
       [.obj [("id", .num 7), ("isSoldOut", .bool true)]] []) ∧
     getFieldD (persistedDoc c10EnvNoOrders
       (.obj [("name", .str "A"), ("items", .arr [])])
       [("shoes", .arr [.obj [("id", .num 7), ("isSoldOut", .bool false)]])]
       [.obj [("id", .num 7), ("isSoldOut", .bool true)]] []) "orders" =
       .arr [newOrderOf c10EnvNoOrders
         (.obj [("name", .str "A"), ("items", .arr [])])]) ∧
    ((placeOrder c10EnvNoShoes c10Body).status = 500 ∧
     (placeOrder c10EnvNoShoes c10Body).success = false ∧
     (placeOrder c10EnvNoShoes c10Body).store = c10EnvNoShoes.load) :=
  ⟨C10_missing_collections.1 c10EnvNoOrders c10Body
      (.obj [("name", .str "A"), ("items", .arr [])]) (.arr [.num 7])
      [("shoes", .arr [.obj [("id", .num 7), ("isSoldOut", .bool false)]])]
      [.obj [("id", .num 7), ("isSoldOut", .bool false)]]
      [.obj [("id", .num 7), ("isSoldOut", .bool true)]]
      rfl rfl rfl rfl rfl rfl rfl rfl rfl,
   C10_missing_collections.2 c10EnvNoShoes c10Body
      (.obj [("name", .str "A"), ("items", .arr [])]) (.arr [.num 7])
      [("orders", .arr [])]
      rfl rfl rfl rfl rfl rfl⟩

end Matex
